import Mathlib

/-!
Shallow embedding of the resilient polling / retry core of the
`fintech-payout-tymebank` frontend:

* `src/frontend/src/utils/retryService.ts` — error classification,
  backoff computation and the bounded retry loop;
* `src/frontend/src/utils/correlationService.ts` — correlation-id
  generation and header attachment;
* `src/frontend/src/apiClient/services/payoutService.ts` — error-message
  extraction and the "expired → server unavailable" rewrite;
* `src/frontend/src/apiClient/services/pollingService.ts` — the polling
  coordinator state machine (timers, change detection, notifications).

JavaScript numbers that the embedded code manipulates as exact values
(delays, retry hints) are modelled as rationals; `Math.random`-driven
values (jitter factors, hex draws) are modelled as oracle streams passed
in explicitly.  Browser timers are modelled as an explicit queue of armed
timers inside the coordinator state.
-/

namespace Fintech

/-! ## JS string primitives

`String.prototype.includes` (substring containment) modelled over
character lists. -/

/-- `listStartsWith s pat` : `pat` occurs at the beginning of `s`. -/
def listStartsWith : List Char → List Char → Bool
  | _, [] => true
  | [], _ :: _ => false
  | a :: as, b :: bs => a == b && listStartsWith as bs

/-- JS `s.includes(pat)` : `pat` occurs contiguously somewhere in `s`. -/
def listIncludes : List Char → List Char → Bool
  | [], pat => pat.isEmpty
  | a :: as, pat => listStartsWith (a :: as) pat || listIncludes as pat

/-- JS `s.includes(pat)` on strings. -/
def strIncludes (s pat : String) : Bool :=
  listIncludes s.toList pat.toList

/-! ## retryService.ts : data model -/

/-- `RetryConfig` (retryService.ts).  Delays are rationals (JS numbers
used exactly). -/
structure RetryConfig where
  maxRetries : Nat
  baseDelay : ℚ
  maxDelay : ℚ
  exponentialBase : ℚ
  jitter : Bool
deriving DecidableEq

/-- `BackendErrorResponse` (retryService.ts): the parsed JSON body of a
failed response.  `retryAfter` models the optional `retry_after` field. -/
structure BackendErrorResponse where
  error : String
  message : String
  retryAfter : Option ℚ
deriving DecidableEq

/-- A thrown JS error value as the retry service inspects it:
`instanceof TypeError`, `.message`, optional `.status`, optional
`.error` (backend error code) and optional `.response`.
`response = none` means no `.response` field; `response = some r` means
a `.response` is attached and `extractBackendError` yields `r`
(`none` when the body cannot be parsed as an error payload). -/
structure JsError where
  isTypeError : Bool
  message : String
  status : Option Nat
  errorCode : Option String
  response : Option (Option BackendErrorResponse)
deriving DecidableEq

/-- JS truthiness of `error.status` (absent or `0` is falsy). -/
def statusTruthy : Option Nat → Bool
  | some n => n != 0
  | none => false

/-- JS truthiness of `error.error` (absent or `""` is falsy). -/
def codeTruthy : Option String → Bool
  | some s => !s.isEmpty
  | none => false

/-- JS truthiness of a number passed as `retryAfter` (`undefined` or `0`
is falsy). -/
def qTruthy : Option ℚ → Bool
  | some q => q != 0
  | none => false

/-- `RetryService.isRetryableError` (retryService.ts lines 330–371).
Mirrors the source's early-return chain:
1. a `TypeError` whose message includes `'fetch'` is retryable unless
   the message includes `'Failed to fetch'`;
2. messages matching the listed network-error patterns are retryable;
3. with a (truthy) HTTP status, exactly `{429,500,502,503,504,408}`;
4. with a (truthy) backend error code, exactly the listed codes;
5. otherwise not retryable. -/
def isRetryableError (e : JsError) : Bool :=
  if e.isTypeError && strIncludes e.message "fetch" then
    if strIncludes e.message "Failed to fetch" then false else true
  else if !e.message.isEmpty &&
      (strIncludes e.message "ERR_CONNECTION_REFUSED" ||
       strIncludes e.message "ERR_NETWORK_CHANGED" ||
       strIncludes e.message "ERR_INTERNET_DISCONNECTED" ||
       strIncludes e.message "ERR_CONNECTION_TIMED_OUT" ||
       strIncludes e.message "connection") then
    true
  else if statusTruthy e.status then
    decide (e.status.getD 0 ∈ [429, 500, 502, 503, 504, 408])
  else if codeTruthy e.errorCode then
    decide (e.errorCode.getD "" ∈
      ["rate_limit_exceeded", "database_connection_error",
       "external_service_unavailable", "payment_provider_error",
       "internal_server_error", "service_unavailable"])
  else false

/-- `RetryService.isBackendDownError` (retryService.ts lines 376–401). -/
def isBackendDownError (e : JsError) : Bool :=
  if !e.message.isEmpty &&
      (strIncludes e.message "ERR_CONNECTION_REFUSED" ||
       strIncludes e.message "Failed to fetch" ||
       strIncludes e.message "NetworkError") then
    true
  else if statusTruthy e.status &&
      decide (e.status.getD 0 ∈ [502, 503, 504]) then
    true
  else if codeTruthy e.errorCode &&
      decide (e.errorCode.getD "" ∈
        ["database_connection_error", "external_service_unavailable",
         "service_unavailable"]) then
    true
  else false

/-- `RetryService.calculateDelay` (retryService.ts lines 436–451).
`jitterFactor` stands for the `0.5 + Math.random() * 0.5` draw made on
this call; it is only consulted when `config.jitter` is set and no
truthy `retryAfter` is present. -/
def calculateDelay (attempt : Nat) (config : RetryConfig)
    (retryAfter : Option ℚ) (jitterFactor : ℚ) : ℚ :=
  if qTruthy retryAfter then
    retryAfter.getD 0 * 1000
  else
    let delay := config.baseDelay * config.exponentialBase ^ attempt
    let delay := min delay config.maxDelay
    if config.jitter then delay * jitterFactor else delay

/-- The error-message rewrite applied on the two failure returns of
`RetryService.retry` (lines 501–504 and 522–525): a `TypeError` whose
message includes `'Failed to fetch'` is replaced by a plain error with
the fixed unavailability message. -/
def unavailableMessage : String :=
  "Server is currently unavailable. Please try again later."

/-- `finalError = error` possibly replaced by
`new Error('Server is currently unavailable. ...')`. -/
def finalizeError (e : JsError) : JsError :=
  if e.isTypeError && strIncludes e.message "Failed to fetch" then
    { isTypeError := false, message := unavailableMessage,
      status := none, errorCode := none, response := none }
  else e

/-- `RetryResult` (retryService.ts) with the per-call observables the
theorems need: the slept delays in order and the number of invocations
of the wrapped operation. -/
structure RetryRun (α : Type) where
  success : Bool
  data : Option α
  error : Option JsError
  attempts : Nat
  finalError : Option BackendErrorResponse
  sleeps : List ℚ
  calls : Nat
deriving DecidableEq

/-- One attempt's outcome, supplied by the environment: the value
`fn()` resolves to, or the error it rejects with. -/
def AttemptOracle (α : Type) := Nat → α ⊕ JsError

/-- The loop body of `RetryService.retry` (lines 463–560), indexed by
`attempt` and the `remaining = maxRetries - attempt` budget, threading
the mutable `backendError` variable.  `jf attempt` is the jitter draw
for the sleep following `attempt`. -/
def retryGo {α : Type} (fn : AttemptOracle α) (config : RetryConfig)
    (jf : Nat → ℚ) :
    Nat → Nat → Option BackendErrorResponse → RetryRun α
  | attempt, remaining, backendError =>
    match fn attempt with
    | Sum.inl v =>
      { success := true, data := some v, error := none,
        attempts := attempt + 1, finalError := none,
        sleeps := [], calls := 1 }
    | Sum.inr e =>
      -- `if (error.response) backendError = await extractBackendError(...)`
      let backendError' :=
        match e.response with
        | none => backendError
        | some r => r
      if !isRetryableError e then
        { success := false, data := none,
          error := some (finalizeError e),
          attempts := attempt + 1,
          finalError := backendError',
          sleeps := [], calls := 1 }
      else
        match remaining with
        | 0 =>
          -- `attempt === finalConfig.maxRetries`
          { success := false, data := none,
            error := some (finalizeError e),
            attempts := attempt + 1,
            finalError := backendError',
            sleeps := [], calls := 1 }
        | remaining' + 1 =>
          let d := calculateDelay attempt config
            (backendError'.bind (·.retryAfter)) (jf attempt)
          let rest := retryGo fn config jf (attempt + 1) remaining' backendError'
          { rest with
            sleeps := d :: rest.sleeps,
            calls := rest.calls + 1,
            attempts := rest.attempts }

/-- `RetryService.retry` : run the loop from `attempt = 0` with the full
`maxRetries` budget and `backendError = null`. -/
def retry {α : Type} (fn : AttemptOracle α) (config : RetryConfig)
    (jf : Nat → ℚ) : RetryRun α :=
  retryGo fn config jf 0 config.maxRetries none

/-- `RETRY_CONFIGS.CONSERVATIVE` (retryService.ts). -/
def CONSERVATIVE : RetryConfig :=
  { maxRetries := 2, baseDelay := 2000, maxDelay := 15000,
    exponentialBase := 2, jitter := true }

/-- `RETRY_CONFIGS.STANDARD` (retryService.ts). -/
def STANDARD : RetryConfig :=
  { maxRetries := 3, baseDelay := 1000, maxDelay := 10000,
    exponentialBase := 2, jitter := true }

/-- `RETRY_CONFIGS.QUICK` (retryService.ts). -/
def QUICK : RetryConfig :=
  { maxRetries := 2, baseDelay := 500, maxDelay := 2000,
    exponentialBase := 2, jitter := true }

/-- `RETRY_CONFIGS.AGGRESSIVE` (retryService.ts). -/
def AGGRESSIVE : RetryConfig :=
  { maxRetries := 5, baseDelay := 1000, maxDelay := 30000,
    exponentialBase := 2, jitter := true }

/-! ## correlationService.ts -/

/-- `v.toString(16)` for a hex digit `0 ≤ n ≤ 15`: `'0'..'9','a'..'f'`. -/
def hexChar (n : Nat) : Char :=
  if n < 10 then Char.ofNat (48 + n) else Char.ofNat (87 + n)

/-- The UUID template literal `"xxxxxxxx-xxxx-4xxx-yxxx-xxxxxxxxxxxx"`. -/
def uuidTemplate : List Char :=
  "xxxxxxxx-xxxx-4xxx-yxxx-xxxxxxxxxxxx".toList

/-- The `.replace(/[xy]/g, ...)` callback loop of `generateCorrelationId`:
each `'x'` or `'y'` consumes one draw `r k` (the source's
`(Math.random() * 16) | 0`, a value in `[0,16)`, modelled as `r k % 16`);
other characters are kept and consume no draw.  For `'x'` the digit is
`r`; for `'y'` it is `(r & 0x3) | 0x8 = r % 4 + 8`. -/
def genGo : List Char → (Nat → Nat) → Nat → List Char
  | [], _, _ => []
  | c :: cs, r, k =>
    if c == 'x' then hexChar (r k % 16) :: genGo cs r (k + 1)
    else if c == 'y' then hexChar (r k % 16 % 4 + 8) :: genGo cs r (k + 1)
    else c :: genGo cs r k

/-- `generateCorrelationId` (correlationService.ts lines 26–35), as the
character list of the produced token; `r` is the `Math.random` oracle. -/
def generateCorrelationId (r : Nat → Nat) : List Char :=
  genGo uuidTemplate r 0

/-- `createHeadersWithCorrelationId` (correlationService.ts lines 40–48):
base headers followed by the spread additional headers. -/
def createHeadersWithCorrelationId
    (additionalHeaders : List (String × String)) (r : Nat → Nat) :
    List (String × String) :=
  [("Content-Type", "application/json"),
   ("X-Correlation-ID", String.mk (generateCorrelationId r))] ++
    additionalHeaders

/-- Header lookup (last binding wins, per JS object spread). -/
def headerGet (headers : List (String × String)) (k : String) :
    Option String :=
  (headers.reverse.find? (fun p => p.1 == k)).map (·.2)

/-! ## payoutService.ts : error-message extraction and requests -/

/-- The `errorData.detail` value of a non-ok response body (`ApiError`):
absent/null, a string, or an object with an optional `message` field
(whose `JSON.stringify` is `serialized`). -/
inductive ErrorDetail where
  | null : ErrorDetail
  | str : String → ErrorDetail
  | obj : Option String → String → ErrorDetail
deriving DecidableEq

/-- The `errorMessage` computation of `createPayout` / `getPayouts`
(payoutService.ts lines 51–58 and 106–113): start from the per-call
default and override from `errorData.detail` when truthy. -/
def extractMessage (dflt : String) (d : ErrorDetail) : String :=
  match d with
  | ErrorDetail.null => dflt
  | ErrorDetail.str s => if s.isEmpty then dflt else s
  | ErrorDetail.obj m serialized =>
    match m with
    | some msg => if msg.isEmpty then serialized else msg
    | none => serialized

/-- The session-expiration rewrite (payoutService.ts lines 61–63 and
116–118): a message containing `'session has expired'` or `'expired'`
becomes the fixed unavailability message. -/
def rewriteExpired (msg : String) : String :=
  if strIncludes msg "session has expired" || strIncludes msg "expired" then
    unavailableMessage
  else msg

/-- The error thrown by one `getPayouts`/`createPayout` attempt on a
non-ok response with status `status` and body detail `d` (payoutService.ts
lines 103–124): a plain `Error` (not a `TypeError`) carrying the
rewritten message, the HTTP status, and the response object — whose body
was already consumed by the first `response.json()`, so a later
`extractBackendError` re-parse fails and yields `null`. -/
def payoutAttemptError (dflt : String) (status : Nat) (d : ErrorDetail) :
    JsError :=
  { isTypeError := false,
    message := rewriteExpired (extractMessage dflt d),
    status := some status,
    errorCode := none,
    response := some none }

/-- One outbound list request as `getPayouts` issues it (payoutService.ts
lines 85–101): page, page size and the correlation header attached.  The
headers are computed once, before `retryService.retry`, so every attempt
of the call reuses them; `attempt` is the retry index of the issuing
attempt. -/
structure PayoutRequest where
  page : Nat
  perPage : Nat
  correlationId : Option String
deriving DecidableEq

/-- The request issued by attempt number `attempt` within one
`getPayouts(page, perPage)` call whose `Math.random` oracle is `r`.
Mirrors the source: `headers` is bound outside the retried closure and
captured by it, so the built request does not depend on `attempt`. -/
def getPayoutsRequest (r : Nat → Nat) (page perPage : Nat)
    (_attempt : Nat) : PayoutRequest :=
  let headers := createHeadersWithCorrelationId [] r
  { page := page, perPage := perPage,
    correlationId := headerGet headers "X-Correlation-ID" }

/-! ## pollingService.ts : the polling coordinator -/

/-- A payout item as the coordinator's change detection inspects it
(`id` and `status`; the remaining fields of `Payout` are never read by
the embedded logic). -/
structure Payout where
  id : String
  status : String
deriving DecidableEq

/-- JS `Map.set` on an association list: update in place when the key is
present (keeping its position), append otherwise. -/
def mapSet (m : List (String × Payout)) (k : String) (v : Payout) :
    List (String × Payout) :=
  if m.any (fun p => p.1 == k) then
    m.map (fun p => if p.1 == k then (k, v) else p)
  else m ++ [(k, v)]

/-- `new Map(ps.map(p => [p.id, p]))` : insert every item in order. -/
def buildMap (ps : List Payout) : List (String × Payout) :=
  ps.foldl (fun m p => mapSet m p.id p) []

/-- `Map.get` : the value at `k`, if present. -/
def mapGet (m : List (String × Payout)) (k : String) : Option Payout :=
  (m.find? (fun p => p.1 == k)).map (·.2)

/-- `PollingService.detectChanges` (pollingService.ts lines 277–306):
two passes over the new map — status changes first, then first-seen
items — pushed into one list. -/
def detectChanges (oldPayouts newPayouts : List Payout) : List Payout :=
  let oldMap := buildMap oldPayouts
  let newMap := buildMap newPayouts
  let statusChanges := newMap.filterMap (fun p =>
    match mapGet oldMap p.1 with
    | some oldPayout =>
      if oldPayout.status != p.2.status then some p.2 else none
    | none => none)
  let newOnes := newMap.filterMap (fun p =>
    if (mapGet oldMap p.1).isSome then none else some p.2)
  statusChanges ++ newOnes

/-- The two kinds of timer callback the service arms:
`mainTick` is the body of `scheduleNextPoll`'s timeout
(lines 200–205: poll, then re-schedule); `errRetry` is the body of the
error-branch timeout (lines 268–272: just re-schedule). -/
inductive TimerKind where
  | mainTick : TimerKind
  | errRetry : TimerKind
deriving DecidableEq

/-- An armed browser timer: its `setTimeout` id, its callback and its
delay in ms. -/
structure Timer where
  id : Nat
  kind : TimerKind
  delay : Nat
deriving DecidableEq

/-- `PollingStatus` (pollingService.ts lines 85–90); `lastUpdate` is a
logical timestamp. -/
structure PollingStatus where
  isPolling : Bool
  lastUpdate : Option Nat
  error : Option String
  pollCount : Nat
deriving DecidableEq

/-- Observable events of one coordinator run: subscriber notifications
and fetch issuance. -/
inductive Event where
  | statusEvent : PollingStatus → Event
  | payoutEvent : List Payout → Event
  | fetchStarted : Nat → Nat → Event
deriving DecidableEq

/-- The coordinator's state: the `PollingService` fields plus the armed
timer queue, a fresh-id source and the event log. -/
structure PollSt where
  pollInterval : Option Nat
  isPolling : Bool
  pollCount : Nat
  lastUpdate : Option Nat
  error : Option String
  currentPayouts : List Payout
  currentPage : Nat
  perPage : Nat
  timers : List Timer
  nextId : Nat
  events : List Event
deriving DecidableEq

/-- `getStatus` (lines 188–195). -/
def getStatus (s : PollSt) : PollingStatus :=
  { isPolling := s.isPolling, lastUpdate := s.lastUpdate,
    error := s.error, pollCount := s.pollCount }

/-- `notifyStatusChange` (lines 318–327): every status subscriber is
invoked with the current status; observable as one appended event. -/
def notifyStatusChange (s : PollSt) : PollSt :=
  { s with events := s.events ++ [Event.statusEvent (getStatus s)] }

/-- `notifyPayoutUpdates` (lines 308–316). -/
def notifyPayoutUpdates (s : PollSt) (payouts : List Payout) : PollSt :=
  { s with events := s.events ++ [Event.payoutEvent payouts] }

/-- `window.setTimeout` : arm a fresh timer, returning its id. -/
def setTimeout (s : PollSt) (kind : TimerKind) (delay : Nat) :
    PollSt × Nat :=
  ({ s with
     timers := s.timers ++ [⟨s.nextId, kind, delay⟩],
     nextId := s.nextId + 1 }, s.nextId)

/-- `window.clearTimeout` : cancel the timer with the given id (no-op
when it already fired or never existed). -/
def clearTimeout (s : PollSt) (id : Nat) : PollSt :=
  { s with timers := s.timers.filter (fun t => t.id != id) }

/-- `stopPolling` (lines 136–146): clear the armed timer, leave Active,
notify status subscribers. -/
def stopPolling (s : PollSt) : PollSt :=
  let s :=
    match s.pollInterval with
    | some id => { clearTimeout s id with pollInterval := none }
    | none => s
  notifyStatusChange { s with isPolling := false }

/-- `scheduleNextPoll` (lines 197–206): when Active, arm the main-tick
timer after `POLL_INTERVAL` (3000 ms) and remember its id. -/
def scheduleNextPoll (s : PollSt) : PollSt :=
  if s.isPolling then
    let (s', id) := setTimeout s TimerKind.mainTick 3000
    { s' with pollInterval := some id }
  else s

/-- `startPolling` (lines 116–131). -/
def startPolling (s : PollSt) (currentPayouts : List Payout) : PollSt :=
  if s.isPolling then s
  else
    let s := { s with currentPayouts := currentPayouts,
                      isPolling := true, pollCount := 0, error := none }
    scheduleNextPoll (notifyStatusChange s)

/-- The settlement of the awaited `retryService.retry` inside
`performPoll`: either the fetched item list or the failure message the
coordinator will store (the source's `result.error` message extraction,
lines 258–263). -/
inductive PollOutcome where
  | ok : List Payout → PollOutcome
  | fail : String → PollOutcome
deriving DecidableEq

/-- First half of `performPoll` (lines 208–229): increment `pollCount`,
stop when the ceiling `MAX_POLL_COUNT = 1000` is exceeded, otherwise
issue the fetch.  Returns the state and whether a fetch is now in
flight. -/
def performPollBegin (s : PollSt) : PollSt × Bool :=
  let s := { s with pollCount := s.pollCount + 1 }
  if s.pollCount > 1000 then (stopPolling s, false)
  else ({ s with events :=
            s.events ++ [Event.fetchStarted s.currentPage s.perPage] },
        true)

/-- Second half of `performPoll` (lines 231–275), run when the awaited
retry call settles at logical time `now`: apply the success branch
(change detection, snapshot replacement, notifications) or the failure
branch (store the message, notify, arm the `ERROR_RETRY_DELAY = 10000`
timer when still Active). -/
def performPollSettle (outcome : PollOutcome) (now : Nat) (s : PollSt) :
    PollSt :=
  match outcome with
  | PollOutcome.ok newPayouts =>
    let changes := detectChanges s.currentPayouts newPayouts
    if changes.length > 0 then
      let s := { s with currentPayouts := newPayouts,
                        lastUpdate := some now, error := none }
      notifyStatusChange (notifyPayoutUpdates s newPayouts)
    else
      notifyStatusChange { s with lastUpdate := some now, error := none }
  | PollOutcome.fail msg =>
    let s := notifyStatusChange { s with error := some msg }
    if s.isPolling then
      let (s', id) := setTimeout s TimerKind.errRetry 10000
      { s' with pollInterval := some id }
    else s

/-- The body of the main-tick timer callback (lines 200–205):
`if (isPolling) { await performPoll(); scheduleNextPoll(); }`, with the
awaited poll settling to `outcome` at time `now` and no interleaving in
between. -/
def mainTickCallback (outcome : PollOutcome) (now : Nat) (s : PollSt) :
    PollSt :=
  if s.isPolling then
    let (s', inFlight) := performPollBegin s
    let s' := if inFlight then performPollSettle outcome now s' else s'
    scheduleNextPoll s'
  else s

/-! ## Spec-side definitions and concrete instances used by the theorems -/

/-- Modelled from the spec: the change-detection contract as the spec
words it — the items of the new snapshot, in the new snapshot's
iteration order, whose id exists in both snapshots with a differing
status or whose id exists only in the new snapshot. -/
def specDetectChanges (oldPayouts newPayouts : List Payout) : List Payout :=
  newPayouts.filter (fun np =>
    match oldPayouts.find? (fun op => op.id == np.id) with
    | some op => op.status != np.status
    | none => true)

/-- An item of the new snapshot that exists in the old snapshot (first
match by id) with a differing status. -/
def statusChangedOf (oldPayouts : List Payout) (np : Payout) : Bool :=
  match oldPayouts.find? (fun op => op.id == np.id) with
  | some op => op.status != np.status
  | none => false

/-- An item of the new snapshot whose id does not occur in the old
snapshot. -/
def firstSeenOf (oldPayouts : List Payout) (np : Payout) : Bool :=
  (oldPayouts.find? (fun op => op.id == np.id)).isNone

/-- Number of fetches issued in an event log. -/
def fetchCount (evs : List Event) : Nat :=
  (evs.filter (fun e =>
    match e with
    | Event.fetchStarted _ _ => true
    | _ => false)).length

/-- A retryable HTTP 500 failure with no response payload attached. -/
def e500 : JsError :=
  { isTypeError := false, message := "HTTP 500: Internal Server Error",
    status := some 500, errorCode := none, response := none }

/-- A retryable HTTP 500 failure whose parsed response payload carries
the server hint `retry_after = 7`. -/
def eHint : JsError :=
  { isTypeError := false, message := "HTTP 500: Internal Server Error",
    status := some 500, errorCode := none,
    response := some (some ⟨"internal_server_error", "boom", some 7⟩) }

/-- The browser's transport-level fetch failure: a `TypeError` with
message `"Failed to fetch"` (connection refused / DNS failure). -/
def failedToFetch : JsError :=
  { isTypeError := true, message := "Failed to fetch",
    status := none, errorCode := none, response := none }

/-- A connection-timeout transport failure. -/
def timedOut : JsError :=
  { isTypeError := false, message := "ERR_CONNECTION_TIMED_OUT",
    status := none, errorCode := none, response := none }

/-- The configuration named in the spec's backoff example: `maxRetries=3,
baseDelay=1000, backoffBase=2, jitter=false`; `maxDelay` is not named
there, so the merge with `DEFAULT_CONFIG` leaves its default `30000`. -/
def cfgC2 : RetryConfig :=
  { maxRetries := 3, baseDelay := 1000, maxDelay := 30000,
    exponentialBase := 2, jitter := false }

/-- A zero-retry configuration (`maxRetries = 0`). -/
def cfg0 : RetryConfig :=
  { maxRetries := 0, baseDelay := 1000, maxDelay := 30000,
    exponentialBase := 2, jitter := true }

/-- Attempt oracle: every attempt fails with the bare HTTP 500 error. -/
def fn500 : AttemptOracle Unit := fun _ => Sum.inr e500

/-- Attempt oracle: the first attempt fails with the hint-carrying
error, all later attempts fail with the bare HTTP 500 error (no
response payload at all). -/
def fnHint : AttemptOracle Unit := fun k =>
  if k == 0 then Sum.inr eHint else Sum.inr e500

/-- A coordinator state in steady Active operation: one prior tick
armed the fired timer, snapshot holds one pending payout. -/
def sBase : PollSt :=
  { pollInterval := some 0, isPolling := true, pollCount := 1,
    lastUpdate := none, error := none,
    currentPayouts := [⟨"1", "pending"⟩], currentPage := 1, perPage := 10,
    timers := [], nextId := 1, events := [] }

/-- `sBase` after the first half of a poll: the fetch is in flight. -/
def c1InFlight : PollSt := (performPollBegin sBase).1

/-- The in-flight state after `stopPolling` was called while the fetch
was outstanding. -/
def c1Stopped : PollSt := stopPolling c1InFlight

/-- An Active state whose next tick crosses the poll-count ceiling. -/
def sCeil : PollSt := { sBase with pollCount := 1000 }

/-! ## Helper lemmas -/

lemma e500_retryable : isRetryableError e500 = true := by decide

lemma e500_response : e500.response = none := rfl

lemma eHint_retryable : isRetryableError eHint = true := by decide

lemma cfgC2_maxRetries : cfgC2.maxRetries = 3 := rfl

lemma cfgC2_baseDelay : cfgC2.baseDelay = 1000 := rfl

lemma cfgC2_maxDelay : cfgC2.maxDelay = 30000 := rfl

lemma cfgC2_expBase : cfgC2.exponentialBase = 2 := rfl

lemma cfgC2_jitter : cfgC2.jitter = false := rfl

/-! ## Claim theorems -/

/-- C2, counterexample.  Running the retry executor with
`maxRetries=3, baseDelay=1000, exponentialBase=2, jitter=false`
(`maxDelay` left at its default `30000`) against a failure with no
`retryAfterSeconds` on every attempt sleeps `1000, 2000, 4000` ms
before attempts 2, 3 and 4 — not the `2000, 4000, 8000` the claim
states: `calculateDelay` uses `baseDelay * base ^ attempt` with the
0-based index of the attempt that just failed. -/
theorem C2_counterexample :
    (retry fn500 cfgC2 (fun _ => 1)).sleeps = [1000, 2000, 4000] ∧
    ([1000, 2000, 4000] : List ℚ) ≠ [2000, 4000, 8000] := by
  constructor
  · simp [retry, retryGo, fn500, e500_retryable, e500_response,
      calculateDelay, qTruthy, cfgC2_maxRetries, cfgC2_baseDelay,
      cfgC2_maxDelay, cfgC2_expBase, cfgC2_jitter]
    norm_num
  · decide

/-- C2, amended: with `maxRetries=3, baseDelay=1000, backoffBase=2,
jitter=false` and failures carrying no `retryAfterSeconds` on every
attempt, the waits before attempts 2, 3 and 4 are exactly
`1000, 2000, 4000` ms — `min(baseDelay * backoffBase ^ (n-2), maxDelay)`
before attempt `n`. -/
theorem C2_amended (errs : Nat → JsError) (jf : Nat → ℚ)
    (hr : ∀ k, isRetryableError (errs k) = true)
    (hnr : ∀ k, (errs k).response = none) :
    (retry (fun k => (Sum.inr (errs k) : Unit ⊕ JsError)) cfgC2 jf).sleeps
      = [1000, 2000, 4000] := by
  simp [retry, retryGo, hr 0, hr 1, hr 2, hr 3, hnr 0, hnr 1, hnr 2,
    hnr 3, calculateDelay, qTruthy, cfgC2_maxRetries, cfgC2_baseDelay,
    cfgC2_maxDelay, cfgC2_expBase, cfgC2_jitter]
  norm_num

/-- C2, witness for the amended theorem at the constant HTTP-500
failure. -/
theorem C2_witness :
    (retry (fun k => (Sum.inr ((fun _ => e500) k) : Unit ⊕ JsError)) cfgC2
      (fun _ => 1)).sleeps = [1000, 2000, 4000] :=
  C2_amended (fun _ => e500) (fun _ => 1) (fun _ => e500_retryable)
    (fun _ => rfl)

lemma eHint_response :
    eHint.response = some (some ⟨"internal_server_error", "boom", some 7⟩) :=
  rfl

lemma qTruthy_some_of_ne {ra : ℚ} (h : ra ≠ 0) : qTruthy (some ra) = true := by
  simp [qTruthy]
  exact h

/-- One retryable, non-final iteration of the retry loop, unfolded. -/
lemma retryGo_step {α : Type} (fn : AttemptOracle α) (cfg : RetryConfig)
    (jf : Nat → ℚ) (attempt r : Nat) (be : Option BackendErrorResponse)
    (e : JsError) (hfn : fn attempt = Sum.inr e)
    (hr : isRetryableError e = true) :
    retryGo fn cfg jf attempt (r + 1) be =
      (let be' := match e.response with
        | none => be
        | some x => x
       let d := calculateDelay attempt cfg (be'.bind (·.retryAfter))
         (jf attempt)
       let rest := retryGo fn cfg jf (attempt + 1) r be'
       { rest with sleeps := d :: rest.sleeps, calls := rest.calls + 1 }) := by
  conv_lhs => rw [retryGo]
  simp [hfn, hr]

/-- C7, counterexample.  Attempt 1 fails with a parsed payload carrying
`retry_after = 7`; attempts 2 and 3 fail with errors carrying no
response payload at all.  The claim requires the hint to apply only to
the wait after attempt 1 (`[7000, 2000, 4000]` with the backoff formula
afterwards), but the `backendError` variable persists across attempts,
so every later wait also uses the stale hint: the code sleeps
`[7000, 7000, 7000]`. -/
theorem C7_counterexample :
    (retry fnHint cfgC2 (fun _ => 1)).sleeps = [7000, 7000, 7000] ∧
    ([7000, 7000, 7000] : List ℚ) ≠ [7000, 2000, 4000] := by
  constructor
  · simp [retry, retryGo, fnHint, eHint_retryable, e500_retryable,
      eHint_response, e500_response, calculateDelay, qTruthy,
      cfgC2_maxRetries, cfgC2_baseDelay, cfgC2_maxDelay, cfgC2_expBase,
      cfgC2_jitter]
    norm_num
  · decide

/-- C7, amended: a wait computed from a held nonzero `retryAfterSeconds`
equals exactly that many seconds in ms, unaffected by jitter and by the
`maxDelay` cap; but the hint is held in the loop's `backendError`
variable, which is only overwritten when a failure carries a response,
so a hint parsed at one attempt is reused for a later attempt whose
failure carries no response payload. -/
theorem C7_amended :
    (∀ (attempt : Nat) (cfg : RetryConfig) (ra : ℚ) (jfac : ℚ), ra ≠ 0 →
       calculateDelay attempt cfg (some ra) jfac = ra * 1000) ∧
    (∀ (α : Type) (fn : AttemptOracle α) (cfg : RetryConfig)
       (jf : Nat → ℚ) (m : Nat) (e1 e2 : JsError)
       (b : BackendErrorResponse) (ra : ℚ),
       cfg.maxRetries = m + 2 →
       fn 0 = Sum.inr e1 → fn 1 = Sum.inr e2 →
       isRetryableError e1 = true → isRetryableError e2 = true →
       e1.response = some (some b) → b.retryAfter = some ra → ra ≠ 0 →
       e2.response = none →
       (retry fn cfg jf).sleeps.take 2 = [ra * 1000, ra * 1000]) := by
  constructor
  · intro attempt cfg ra jfac h
    simp [calculateDelay, qTruthy_some_of_ne h]
  · intro α fn cfg jf m e1 e2 b ra hM hfn0 hfn1 hr1 hr2 hresp1 hra hne
      hresp2
    have h2 : m + 2 = (m + 1) + 1 := rfl
    rw [retry, hM, h2,
      retryGo_step fn cfg jf 0 (m + 1) none e1 hfn0 hr1]
    simp only [hresp1, Nat.zero_add]
    rw [retryGo_step fn cfg jf 1 m (some b) e2 hfn1 hr2]
    simp [hresp2, hra, calculateDelay, qTruthy_some_of_ne hne]

/-- C7, witness for the amended theorem: the hint-then-bare-failure
oracle under the example configuration waits `7 * 1000` ms twice. -/
theorem C7_witness :
    (retry fnHint cfgC2 (fun _ => 1)).sleeps.take 2
      = [(7 : ℚ) * 1000, 7 * 1000] :=
  C7_amended.2 Unit fnHint cfgC2 (fun _ => 1) 1 eHint e500
    ⟨"internal_server_error", "boom", some 7⟩ 7 rfl rfl rfl
    eHint_retryable e500_retryable rfl rfl (by decide) rfl

/-- C4: evaluation of the tick callback at the failing input.  On a
tick whose fetch fails, the coordinator does set `lastError` to the
failure's message and notify the status subscribers, but it then arms
TWO timers, not one: the failure branch of `performPoll` arms a 10 s
`errRetry` timer (whose callback only calls `scheduleNextPoll`, i.e.
leads to a further 3 s main tick), and the continuation of the awaited
`performPoll` inside the main-tick callback calls `scheduleNextPoll`
again, arming the regular 3 s main tick anyway.  So the next fetch
still happens one steady interval later and an extra 10 s chain is
spawned, contradicting both the claim and the source's own
"On error, wait longer before next poll" comment. -/
theorem C4_theorem :
    (mainTickCallback (PollOutcome.fail "network down") 5 sBase).error
      = some "network down" ∧
    (mainTickCallback (PollOutcome.fail "network down") 5 sBase).events
      = [Event.fetchStarted 1 10,
         Event.statusEvent ⟨true, none, some "network down", 2⟩] ∧
    (mainTickCallback (PollOutcome.fail "network down") 5 sBase).timers.map
        (fun t => (t.kind, t.delay))
      = [(TimerKind.errRetry, 10000), (TimerKind.mainTick, 3000)] := by
  exact ⟨by decide, by decide, by decide⟩

/-- C5, counterexample.  The browser's canonical transport-level
network failure — the `TypeError` with message `"Failed to fetch"` that
`fetch` raises on connection-refused / DNS failures — is classified NOT
retryable by `isRetryableError` (the code deliberately fails fast on
it), contradicting the claim that every transport-level failure is
Retryable.  It is, however, flagged remote-unavailable. -/
theorem C5_counterexample :
    isRetryableError failedToFetch = false ∧
    isBackendDownError failedToFetch = true := by
  exact ⟨by decide, by decide⟩

/-- C5, amended: transport failures are Retryable except the
`TypeError "Failed to fetch"` case, which is deliberately classified
non-retryable (fail fast) while still being flagged remote-unavailable:
(1) a fetch `TypeError` whose message does not contain
`"Failed to fetch"` is Retryable; (2) a failure whose message matches
`ERR_CONNECTION_REFUSED` is Retryable and flagged remote-unavailable
(hard down); (3) a plain connection-timeout failure is Retryable but
not flagged (merely slow); (4) a `TypeError` whose message contains
`"Failed to fetch"` is not retryable yet flagged remote-unavailable. -/
theorem C5_amended :
    (∀ e : JsError, e.isTypeError = true →
       strIncludes e.message "fetch" = true →
       strIncludes e.message "Failed to fetch" = false →
       isRetryableError e = true) ∧
    (∀ e : JsError, e.isTypeError = false → e.message ≠ "" →
       strIncludes e.message "ERR_CONNECTION_REFUSED" = true →
       isRetryableError e = true ∧ isBackendDownError e = true) ∧
    (isRetryableError timedOut = true ∧ isBackendDownError timedOut = false) ∧
    (∀ e : JsError, e.isTypeError = true →
       strIncludes e.message "fetch" = true →
       strIncludes e.message "Failed to fetch" = true →
       e.message ≠ "" →
       isRetryableError e = false ∧ isBackendDownError e = true) := by
  refine ⟨?_, ?_, ⟨by decide, by decide⟩, ?_⟩
  · intro e ht hf hnf
    simp [isRetryableError, ht, hf, hnf]
  · intro e ht hm hrefused
    have hne : e.message.isEmpty = false := by
      cases h : e.message.isEmpty with
      | false => rfl
      | true => exact absurd ((String.isEmpty_iff e.message).mp h) hm
    constructor
    · simp [isRetryableError, ht, hne, hrefused]
    · simp [isBackendDownError, hne, hrefused]
  · intro e ht hf hff hm
    have hne : e.message.isEmpty = false := by
      cases h : e.message.isEmpty with
      | false => rfl
      | true => exact absurd ((String.isEmpty_iff e.message).mp h) hm
    constructor
    · simp [isRetryableError, ht, hf, hff]
    · simp [isBackendDownError, hne, hff]

/-- C5, witness for the amended theorem at concrete errors: a
non-"Failed to fetch" fetch `TypeError` is retryable; an
`ERR_CONNECTION_REFUSED` failure is retryable and flagged; the
`"Failed to fetch"` `TypeError` is not retryable but flagged. -/
theorem C5_witness :
    (isRetryableError
      { isTypeError := true, message := "TypeError: fetch failed",
        status := none, errorCode := none, response := none } = true) ∧
    (isRetryableError
      { isTypeError := false, message := "net::ERR_CONNECTION_REFUSED",
        status := none, errorCode := none, response := none } = true ∧
     isBackendDownError
      { isTypeError := false, message := "net::ERR_CONNECTION_REFUSED",
        status := none, errorCode := none, response := none } = true) ∧
    (isRetryableError failedToFetch = false ∧
     isBackendDownError failedToFetch = true) :=
  ⟨C5_amended.1 _ rfl (by decide) (by decide),
   C5_amended.2.1 _ rfl (by decide) (by decide),
   C5_amended.2.2.2 failedToFetch rfl (by decide) (by decide) (by decide)⟩

/-- Loop invariant of `retryGo`: the operation is invoked at least once
and at most `remaining + 1` times, the reported `attempts` equals
`attempt` plus the number of invocations made from there, and a zero
budget never sleeps. -/
lemma retryGo_calls {α : Type} (fn : AttemptOracle α) (cfg : RetryConfig)
    (jf : Nat → ℚ) (remaining : Nat) :
    ∀ (attempt : Nat) (be : Option BackendErrorResponse),
      (retryGo fn cfg jf attempt remaining be).attempts
          = attempt + (retryGo fn cfg jf attempt remaining be).calls ∧
      1 ≤ (retryGo fn cfg jf attempt remaining be).calls ∧
      (retryGo fn cfg jf attempt remaining be).calls ≤ remaining + 1 ∧
      (remaining = 0 → (retryGo fn cfg jf attempt remaining be).sleeps = []) := by
  induction remaining with
  | zero =>
    intro attempt be
    rw [retryGo]
    rcases hf : fn attempt with v | e
    · simp [hf]
    · rcases hr : isRetryableError e with _ | _ <;> simp [hf, hr]
  | succ r ih =>
    intro attempt be
    rw [retryGo]
    rcases hf : fn attempt with v | e
    · simp [hf]
    · rcases hr : isRetryableError e with _ | _
      · simp [hf, hr]
      · have h := ih (attempt + 1)
          (match e.response with | none => be | some x => x)
        simp [hf, hr]
        omega

/-- C8: for every operation, configuration and jitter oracle the retry
executor invokes the operation between `1` and `maxRetries + 1` times,
terminates with `attempts` equal to the number of invocations made
(`calls` counts one invocation per loop iteration, by construction of
the embedding), and with `maxRetries = 0` it invokes the operation
exactly once and never sleeps, regardless of how the failure is
classified. -/
theorem C8_theorem (α : Type) (fn : AttemptOracle α) (cfg : RetryConfig)
    (jf : Nat → ℚ) :
    (retry fn cfg jf).attempts = (retry fn cfg jf).calls ∧
    1 ≤ (retry fn cfg jf).calls ∧
    (retry fn cfg jf).calls ≤ cfg.maxRetries + 1 ∧
    (cfg.maxRetries = 0 →
      (retry fn cfg jf).calls = 1 ∧ (retry fn cfg jf).sleeps = []) := by
  have h := retryGo_calls fn cfg jf cfg.maxRetries 0 none
  rw [retry]
  refine ⟨by omega, h.2.1, h.2.2.1, fun h0 => ?_⟩
  have h1 := h.2.1
  have h2 := h.2.2.1
  have h3 := h.2.2.2
  rw [h0] at h1 h2 h3 ⊢
  exact ⟨by omega, h3 rfl⟩

/-- C8, witness: a zero-retry configuration against a constantly
failing retryable operation performs exactly one call and no sleep. -/
theorem C8_witness :
    (retry fn500 cfg0 (fun _ => 1)).calls = 1 ∧
    (retry fn500 cfg0 (fun _ => 1)).sleeps = [] :=
  (C8_theorem Unit fn500 cfg0 (fun _ => 1)).2.2.2 rfl

/-- The retry loop against a constantly failing operation surfaces
exactly that error (after `finalizeError`) and reports failure. -/
lemma retryGo_const_error {α : Type} (e : JsError) (cfg : RetryConfig)
    (jf : Nat → ℚ) (remaining : Nat) :
    ∀ (attempt : Nat) (be : Option BackendErrorResponse),
      ((retryGo (fun _ => (Sum.inr e : α ⊕ JsError)) cfg jf attempt
          remaining be).error = some (finalizeError e)) ∧
      ((retryGo (fun _ => (Sum.inr e : α ⊕ JsError)) cfg jf attempt
          remaining be).success = false) := by
  induction remaining with
  | zero =>
    intro attempt be
    rw [retryGo]
    rcases hr : isRetryableError e with _ | _ <;> simp [hr]
  | succ r ih =>
    intro attempt be
    rw [retryGo]
    rcases hr : isRetryableError e with _ | _
    · simp [hr]
    · simp [hr]
      exact ih (attempt + 1) _

/-- C10: for both user-initiated calls (`createPayout` with default
message `"Failed to create payout"`, `getPayouts` with
`"Failed to fetch payouts"`), any non-ok response whose extracted
error-detail message contains `"expired"` is rewritten — for every HTTP
status, with no backend-reachability check — to the fixed
unavailability message, and that is the message the caller receives
after the retry loop settles. -/
theorem C10_theorem (dflt : String) (status : Nat) (d : ErrorDetail)
    (cfg : RetryConfig) (jf : Nat → ℚ)
    (h : strIncludes (extractMessage dflt d) "expired" = true) :
    (payoutAttemptError dflt status d).message = unavailableMessage ∧
    ((retry (fun _ => (Sum.inr (payoutAttemptError dflt status d) :
        Unit ⊕ JsError)) cfg jf).error.map JsError.message
      = some unavailableMessage) ∧
    (retry (fun _ => (Sum.inr (payoutAttemptError dflt status d) :
        Unit ⊕ JsError)) cfg jf).success = false := by
  have hmsg : (payoutAttemptError dflt status d).message
      = unavailableMessage := by
    simp [payoutAttemptError, rewriteExpired, h]
  have hfin : finalizeError (payoutAttemptError dflt status d)
      = payoutAttemptError dflt status d := by
    simp [finalizeError, payoutAttemptError]
  have hrun := retryGo_const_error (α := Unit)
    (payoutAttemptError dflt status d) cfg jf cfg.maxRetries 0 none
  refine ⟨hmsg, ?_, ?_⟩
  · rw [retry, hrun.1, hfin]
    simp [hmsg]
  · rw [retry]
    exact hrun.2

/-- C10, witness: a 401 response whose detail is the session-expired
string surfaces the unavailability message through the quick-retry
configuration. -/
theorem C10_witness :
    (payoutAttemptError "Failed to fetch payouts" 401
      (ErrorDetail.str "Your session has expired. Please log in again.")).message
        = unavailableMessage ∧
    ((retry (fun _ => (Sum.inr (payoutAttemptError "Failed to fetch payouts"
        401 (ErrorDetail.str "Your session has expired. Please log in again.")) :
        Unit ⊕ JsError)) QUICK (fun _ => 1)).error.map JsError.message
      = some unavailableMessage) ∧
    (retry (fun _ => (Sum.inr (payoutAttemptError "Failed to fetch payouts"
        401 (ErrorDetail.str "Your session has expired. Please log in again.")) :
        Unit ⊕ JsError)) QUICK (fun _ => 1)).success = false :=
  C10_theorem "Failed to fetch payouts" 401
    (ErrorDetail.str "Your session has expired. Please log in again.")
    QUICK (fun _ => 1) (by decide)

/-- `hexChar` is injective on hex digits. -/
lemma hexCharInj : ∀ a b : Fin 16, hexChar a.val = hexChar b.val → a = b := by
  decide

/-- C9: (1) within one `getPayouts` call the request built by every
retry attempt carries the same correlation token — the headers are
computed once, outside the retried closure — namely the freshly minted
`generateCorrelationId` of the call's random stream; (2) for every
random stream the minted token is 36 characters long, shaped like a v4
identifier (dashes at positions 8, 13, 18, 23, version character `'4'`
at position 14, variant character at position 19 in `8/9/a/b`);
(3) two calls whose random streams differ in the first hex draw mint
different tokens. -/
theorem C9_theorem :
    (∀ (r : Nat → Nat) (page perPage i j : Nat),
       (getPayoutsRequest r page perPage i).correlationId
         = (getPayoutsRequest r page perPage j).correlationId ∧
       (getPayoutsRequest r page perPage i).correlationId
         = some (String.mk (generateCorrelationId r))) ∧
    (∀ r : Nat → Nat,
       (generateCorrelationId r).length = 36 ∧
       (generateCorrelationId r).get? 8 = some '-' ∧
       (generateCorrelationId r).get? 13 = some '-' ∧
       (generateCorrelationId r).get? 18 = some '-' ∧
       (generateCorrelationId r).get? 23 = some '-' ∧
       (generateCorrelationId r).get? 14 = some '4' ∧
       ((generateCorrelationId r).get? 19 = some '8' ∨
        (generateCorrelationId r).get? 19 = some '9' ∨
        (generateCorrelationId r).get? 19 = some 'a' ∨
        (generateCorrelationId r).get? 19 = some 'b')) ∧
    (∀ r1 r2 : Nat → Nat, r1 0 % 16 ≠ r2 0 % 16 →
       generateCorrelationId r1 ≠ generateCorrelationId r2) := by
  refine ⟨fun r page perPage i j => ⟨rfl, rfl⟩, fun r => ?_, ?_⟩
  · have h19 : (generateCorrelationId r).get? 19
        = some (hexChar (r 15 % 16 % 4 + 8)) := rfl
    refine ⟨rfl, rfl, rfl, rfl, rfl, rfl, ?_⟩
    have hm : r 15 % 16 % 4 < 4 := Nat.mod_lt _ (by norm_num)
    rcases h : r 15 % 16 % 4 with _ | (_ | (_ | (_ | k)))
    · exact Or.inl (by rw [h19, h]; decide)
    · exact Or.inr (Or.inl (by rw [h19, h]; decide))
    · exact Or.inr (Or.inr (Or.inl (by rw [h19, h]; decide)))
    · exact Or.inr (Or.inr (Or.inr (by rw [h19, h]; decide)))
    · omega
  · intro r1 r2 hne heq
    have e1 : (generateCorrelationId r1).get? 0
        = some (hexChar (r1 0 % 16)) := rfl
    have e2 : (generateCorrelationId r2).get? 0
        = some (hexChar (r2 0 % 16)) := rfl
    rw [heq, e2] at e1
    have hc : hexChar (r2 0 % 16) = hexChar (r1 0 % 16) :=
      Option.some.inj e1
    have hfin := hexCharInj ⟨r2 0 % 16, Nat.mod_lt _ (by norm_num)⟩
      ⟨r1 0 % 16, Nat.mod_lt _ (by norm_num)⟩ hc
    exact hne (congrArg Fin.val hfin).symm

/-- C9, witness: the all-zero and all-one random streams mint different
tokens. -/
theorem C9_witness :
    generateCorrelationId (fun _ => 0) ≠ generateCorrelationId (fun _ => 1) :=
  C9_theorem.2.2 (fun _ => 0) (fun _ => 1) (by decide)

/-- C1, counterexample.  A poll is in flight (`c1InFlight`), `stop()`
is called (`c1Stopped`, the active flag is now down), and then the poll
settles successfully with a changed item.  `performPoll` applies the
result without rechecking the active flag: the held snapshot IS
replaced, `lastUpdate` IS set, and both an `onChange` and an `onStatus`
notification fire — not the "zero observable effect" the claim
states. -/
theorem C1_counterexample :
    c1Stopped.isPolling = false ∧
    (performPollSettle (PollOutcome.ok [⟨"1", "succeeded"⟩]) 7
        c1Stopped).currentPayouts = [⟨"1", "succeeded"⟩] ∧
    (performPollSettle (PollOutcome.ok [⟨"1", "succeeded"⟩]) 7
        c1Stopped).currentPayouts ≠ c1Stopped.currentPayouts ∧
    (performPollSettle (PollOutcome.ok [⟨"1", "succeeded"⟩]) 7
        c1Stopped).lastUpdate = some 7 ∧
    (performPollSettle (PollOutcome.ok [⟨"1", "succeeded"⟩]) 7
        c1Stopped).lastUpdate ≠ c1Stopped.lastUpdate ∧
    (performPollSettle (PollOutcome.ok [⟨"1", "succeeded"⟩]) 7
        c1Stopped).events
      = c1Stopped.events
        ++ [Event.payoutEvent [⟨"1", "succeeded"⟩],
            Event.statusEvent ⟨false, some 7, none, 2⟩] := by
  refine ⟨by decide, by decide, by decide, by decide, by decide, by decide⟩

/-- C1, amended: `stop()` cancels the armed timer and clears the active
flag, but there is no active-flag check between a poll's settlement and
the application of its result — an in-flight poll that settles after
`stop()` still applies its result (on a change-bearing success it
replaces the snapshot and sets `lastUpdate`) and always notifies at
least one subscriber channel; what the cleared flag does prevent is any
re-arming: the settlement arms no timer and `scheduleNextPoll` is a
no-op. -/
theorem C1_amended (s : PollSt) (h : s.isPolling = false)
    (o : PollOutcome) (now : Nat) :
    (performPollSettle o now s).timers = s.timers ∧
    s.events.length < (performPollSettle o now s).events.length ∧
    (∀ newPayouts, o = PollOutcome.ok newPayouts →
       0 < (detectChanges s.currentPayouts newPayouts).length →
       (performPollSettle o now s).currentPayouts = newPayouts ∧
       (performPollSettle o now s).lastUpdate = some now) ∧
    scheduleNextPoll s = s := by
  have hsched : scheduleNextPoll s = s := by simp [scheduleNextPoll, h]
  cases o with
  | ok newPayouts =>
    by_cases hc : (detectChanges s.currentPayouts newPayouts).length > 0
    · refine ⟨?_, ?_, ?_, hsched⟩
      · simp [performPollSettle, notifyPayoutUpdates, notifyStatusChange, hc]
      · simp [performPollSettle, notifyPayoutUpdates, notifyStatusChange, hc]
      · intro np heq hlen
        injection heq with h'
        subst h'
        exact ⟨by simp [performPollSettle, notifyPayoutUpdates,
          notifyStatusChange, hc],
          by simp [performPollSettle, notifyPayoutUpdates,
            notifyStatusChange, hc]⟩
    · refine ⟨?_, ?_, ?_, hsched⟩
      · simp [performPollSettle, notifyStatusChange, hc]
      · simp [performPollSettle, notifyStatusChange, hc]
      · intro np heq hlen
        injection heq with h'
        subst h'
        exact absurd hlen (by omega)
  | fail msg =>
    refine ⟨?_, ?_, ?_, hsched⟩
    · simp [performPollSettle, notifyStatusChange, h]
    · simp [performPollSettle, notifyStatusChange, h]
    · intro np heq
      cases heq

/-- C1, witness for the amended theorem at the stopped in-flight
state. -/
theorem C1_witness :
    (performPollSettle (PollOutcome.ok [⟨"1", "succeeded"⟩]) 7
        c1Stopped).timers = c1Stopped.timers ∧
    c1Stopped.events.length
      < (performPollSettle (PollOutcome.ok [⟨"1", "succeeded"⟩]) 7
          c1Stopped).events.length ∧
    (∀ newPayouts,
       PollOutcome.ok [⟨"1", "succeeded"⟩] = PollOutcome.ok newPayouts →
       0 < (detectChanges c1Stopped.currentPayouts newPayouts).length →
       (performPollSettle (PollOutcome.ok [⟨"1", "succeeded"⟩]) 7
           c1Stopped).currentPayouts = newPayouts ∧
       (performPollSettle (PollOutcome.ok [⟨"1", "succeeded"⟩]) 7
           c1Stopped).lastUpdate = some 7) ∧
    scheduleNextPoll c1Stopped = c1Stopped :=
  C1_amended c1Stopped (by decide) (PollOutcome.ok [⟨"1", "succeeded"⟩]) 7

lemma scheduleNextPoll_pollCount (s : PollSt) :
    (scheduleNextPoll s).pollCount = s.pollCount := by
  cases h : s.isPolling <;> simp [scheduleNextPoll, setTimeout, h]

lemma scheduleNextPoll_events (s : PollSt) :
    (scheduleNextPoll s).events = s.events := by
  cases h : s.isPolling <;> simp [scheduleNextPoll, setTimeout, h]

lemma scheduleNextPoll_isPolling (s : PollSt) :
    (scheduleNextPoll s).isPolling = s.isPolling := by
  cases h : s.isPolling <;> simp [scheduleNextPoll, setTimeout, h]

lemma stopPolling_pollCount (s : PollSt) :
    (stopPolling s).pollCount = s.pollCount := by
  cases h : s.pollInterval <;>
    simp [stopPolling, clearTimeout, notifyStatusChange, getStatus, h]

lemma stopPolling_isPolling (s : PollSt) :
    (stopPolling s).isPolling = false := by
  cases h : s.pollInterval <;>
    simp [stopPolling, clearTimeout, notifyStatusChange, getStatus, h]

lemma stopPolling_events (s : PollSt) :
    (stopPolling s).events = s.events
      ++ [Event.statusEvent ⟨false, s.lastUpdate, s.error, s.pollCount⟩] := by
  cases h : s.pollInterval <;>
    simp [stopPolling, clearTimeout, notifyStatusChange, getStatus, h]

lemma performPollSettle_pollCount (o : PollOutcome) (now : Nat)
    (s : PollSt) : (performPollSettle o now s).pollCount = s.pollCount := by
  cases o with
  | ok nps =>
    by_cases hc : (detectChanges s.currentPayouts nps).length > 0 <;>
      simp [performPollSettle, notifyStatusChange, notifyPayoutUpdates, hc]
  | fail msg =>
    cases hb : s.isPolling <;>
      simp [performPollSettle, notifyStatusChange, setTimeout, hb]

lemma fetchCount_append_status (evs : List Event) (st : PollingStatus) :
    fetchCount (evs ++ [Event.statusEvent st]) = fetchCount evs := by
  simp [fetchCount, List.filter_append]

/-- C6: (1) every tick of an Active coordinator first increments
`pollCount`; (2) a tick that pushes `pollCount` beyond the ceiling
(`MAX_POLL_COUNT = 1000`) transitions the session to Idle and appends
exactly one event — a status notification with `isActive = false` and
the incremented count — so no fetch is issued on that tick; (3) a tick
entered with `pollCount` already at the ceiling never increases the
number of issued fetches, i.e. the fetch operation is never invoked in
a state whose incremented count exceeds the ceiling. -/
theorem C6_theorem :
    (∀ (s : PollSt) (o : PollOutcome) (n : Nat), s.isPolling = true →
       (mainTickCallback o n s).pollCount = s.pollCount + 1) ∧
    (∀ (s : PollSt) (o : PollOutcome) (n : Nat), s.isPolling = true →
       1000 ≤ s.pollCount →
       (mainTickCallback o n s).isPolling = false ∧
       (mainTickCallback o n s).events
         = s.events ++ [Event.statusEvent
             ⟨false, s.lastUpdate, s.error, s.pollCount + 1⟩]) ∧
    (∀ (s : PollSt) (o : PollOutcome) (n : Nat), 1000 < s.pollCount + 1 →
       fetchCount (mainTickCallback o n s).events = fetchCount s.events) := by
  refine ⟨?_, ?_, ?_⟩
  · intro s o n h
    by_cases hceil : s.pollCount + 1 > 1000
    · simp [mainTickCallback, h, performPollBegin, hceil,
        scheduleNextPoll_pollCount, stopPolling_pollCount]
    · simp [mainTickCallback, h, performPollBegin, hceil,
        scheduleNextPoll_pollCount, performPollSettle_pollCount]
  · intro s o n h hceil
    have hgt : s.pollCount + 1 > 1000 := by omega
    constructor
    · simp [mainTickCallback, h, performPollBegin, hgt,
        scheduleNextPoll_isPolling, stopPolling_isPolling]
    · simp [mainTickCallback, h, performPollBegin, hgt,
        scheduleNextPoll_events, stopPolling_events]
  · intro s o n hceil
    cases h : s.isPolling
    · simp [mainTickCallback, h]
    · simp [mainTickCallback, h, performPollBegin, hceil,
        scheduleNextPoll_events, stopPolling_events,
        fetchCount_append_status]

/-- C6, witness: at the concrete state whose next tick crosses the
ceiling, the session goes Idle with the single `isActive = false`
status notification. -/
theorem C6_witness :
    (mainTickCallback (PollOutcome.ok []) 5 sCeil).isPolling = false ∧
    (mainTickCallback (PollOutcome.ok []) 5 sCeil).events
      = sCeil.events ++ [Event.statusEvent
          ⟨false, sCeil.lastUpdate, sCeil.error, sCeil.pollCount + 1⟩] :=
  C6_theorem.2.1 sCeil (PollOutcome.ok []) 5 rfl (by decide)

lemma mapSet_append (m : List (String × Payout)) (k : String) (v : Payout)
    (h : ∀ q ∈ m, (q.1 == k) = false) : mapSet m k v = m ++ [(k, v)] := by
  have hany : m.any (fun p => p.1 == k) = false := by
    rw [List.any_eq_false]
    intro q hq
    simp [h q hq]
  simp [mapSet, hany]

lemma buildMap_go (ps : List Payout) :
    ∀ (m : List (String × Payout)),
      (∀ p ∈ ps, ∀ q ∈ m, (q.1 == p.id) = false) →
      (ps.map Payout.id).Nodup →
      ps.foldl (fun m p => mapSet m p.id p) m
        = m ++ ps.map (fun p => (p.id, p)) := by
  induction ps with
  | nil => intro m _ _; simp
  | cons p ps ih =>
    intro m hm hnd
    simp only [List.foldl_cons]
    rw [mapSet_append m p.id p (fun q hq => hm p (by simp) q hq)]
    rw [ih (m ++ [(p.id, p)]) ?_ ?_]
    · simp
    · intro p' hp' q hq
      rcases List.mem_append.mp hq with hq | hq
      · exact hm p' (by simp [hp']) q hq
      · have hq' : q = (p.id, p) := by simpa using hq
        subst hq'
        have hni : p.id ∉ ps.map Payout.id :=
          (List.nodup_cons.mp (by simpa using hnd)).1
        have hne : p.id ≠ p'.id := fun hEq =>
          hni (hEq ▸ List.mem_map_of_mem Payout.id hp')
        simpa using hne
    · exact (List.nodup_cons.mp (by simpa using hnd)).2

lemma buildMap_eq (ps : List Payout) (h : (ps.map Payout.id).Nodup) :
    buildMap ps = ps.map (fun p => (p.id, p)) := by
  simpa [buildMap] using buildMap_go ps [] (by simp) h

lemma mapGet_map (ps : List Payout) (k : String) :
    mapGet (ps.map (fun p => (p.id, p))) k
      = ps.find? (fun p => p.id == k) := by
  induction ps with
  | nil => rfl
  | cons p ps ih =>
    simp only [mapGet] at ih ⊢
    simp only [List.map_cons, List.find?_cons]
    by_cases h : (p.id == k) = true
    · rw [show ((p.id, p).1 == k) = true from h]
      simp
    · rw [show ((p.id, p).1 == k) = false from by simpa using h]
      simpa using ih

lemma filterMap_statusChanged (old new : List Payout) :
    new.filterMap (fun np =>
      match old.find? (fun op => op.id == np.id) with
      | some op => if op.status != np.status then some np else none
      | none => none)
      = new.filter (statusChangedOf old) := by
  induction new with
  | nil => rfl
  | cons np l ih =>
    simp only [List.filterMap_cons, List.filter_cons]
    rw [ih]
    cases h : old.find? (fun op => op.id == np.id) with
    | none => simp [statusChangedOf, h]
    | some op =>
      by_cases hs : (op.status != np.status) = true <;>
        simp [statusChangedOf, h, hs]

lemma filterMap_firstSeen (old new : List Payout) :
    new.filterMap (fun np =>
      if (old.find? (fun op => op.id == np.id)).isSome then none
      else some np)
      = new.filter (firstSeenOf old) := by
  induction new with
  | nil => rfl
  | cons np l ih =>
    simp only [List.filterMap_cons, List.filter_cons]
    rw [ih]
    cases h : old.find? (fun op => op.id == np.id) <;>
      simp [firstSeenOf, h]

/-- With unique ids on both snapshots, `detectChanges` returns the
status-changed items of the new snapshot (in new-snapshot order)
followed by the first-seen items (in new-snapshot order). -/
lemma detectChanges_eq (old new : List Payout)
    (h1 : (old.map Payout.id).Nodup) (h2 : (new.map Payout.id).Nodup) :
    detectChanges old new
      = new.filter (statusChangedOf old) ++ new.filter (firstSeenOf old) := by
  simp only [detectChanges]
  rw [buildMap_eq old h1, buildMap_eq new h2]
  rw [List.filterMap_map, List.filterMap_map]
  congr 1
  · rw [← filterMap_statusChanged old new]
    congr 1
    funext np
    simp [Function.comp, mapGet_map]
  · rw [← filterMap_firstSeen old new]
    congr 1
    funext np
    simp [Function.comp, mapGet_map]

/-- C3, counterexample.  `detectChanges` makes two passes over the new
map — status changes first, then first-seen items — so the change list
does NOT in general preserve the iteration order of the new snapshot:
for old `[{1,pending}]` and new `[{2,pending},{1,succeeded}]` the code
returns `[{1,succeeded},{2,pending}]`, while the spec-modelled contract
(`specDetectChanges`, order of the new snapshot) returns
`[{2,pending},{1,succeeded}]`. -/
theorem C3_counterexample :
    detectChanges [⟨"1", "pending"⟩] [⟨"2", "pending"⟩, ⟨"1", "succeeded"⟩]
      = [⟨"1", "succeeded"⟩, ⟨"2", "pending"⟩] ∧
    specDetectChanges [⟨"1", "pending"⟩]
        [⟨"2", "pending"⟩, ⟨"1", "succeeded"⟩]
      = [⟨"2", "pending"⟩, ⟨"1", "succeeded"⟩] ∧
    detectChanges [⟨"1", "pending"⟩] [⟨"2", "pending"⟩, ⟨"1", "succeeded"⟩]
      ≠ specDetectChanges [⟨"1", "pending"⟩]
          [⟨"2", "pending"⟩, ⟨"1", "succeeded"⟩] := by
  refine ⟨by decide, by decide, by decide⟩

/-- C3, amended: for snapshots with unique ids the change list contains
exactly the items whose id exists in both snapshots with a differing
status plus the items whose id exists only in the new snapshot, but
ordered as all status-changed items (in new-snapshot order) followed by
all first-observed items (in new-snapshot order) — not as one pass over
the new snapshot.  The claim's concrete example happens to produce the
same list under both orders. -/
theorem C3_amended (oldPayouts newPayouts : List Payout)
    (h1 : (oldPayouts.map Payout.id).Nodup)
    (h2 : (newPayouts.map Payout.id).Nodup) :
    detectChanges oldPayouts newPayouts
      = newPayouts.filter (statusChangedOf oldPayouts)
        ++ newPayouts.filter (firstSeenOf oldPayouts) ∧
    detectChanges [⟨"1", "pending"⟩] [⟨"1", "succeeded"⟩, ⟨"2", "pending"⟩]
      = [⟨"1", "succeeded"⟩, ⟨"2", "pending"⟩] :=
  ⟨detectChanges_eq oldPayouts newPayouts h1 h2, by decide⟩

/-- C3, witness for the amended theorem at the claim's concrete
snapshots. -/
theorem C3_witness :
    detectChanges [⟨"1", "pending"⟩] [⟨"1", "succeeded"⟩, ⟨"2", "pending"⟩]
      = List.filter (statusChangedOf [⟨"1", "pending"⟩])
          [⟨"1", "succeeded"⟩, ⟨"2", "pending"⟩]
        ++ List.filter (firstSeenOf [⟨"1", "pending"⟩])
          [⟨"1", "succeeded"⟩, ⟨"2", "pending"⟩] :=
  (C3_amended [⟨"1", "pending"⟩] [⟨"1", "succeeded"⟩, ⟨"2", "pending"⟩]
    (by decide) (by decide)).1

end Fintech

